import Mathlib

/-!
Verification of the computational core of the Rolex-Watch-Animation script
(`src/Main.py`): the polar-to-Cartesian converter, the per-frame time
decomposition and hand angles, and the text-overlay fade interpolation.

The Python script computes with floats; the values that arise (frame indices
divided by the frame rate, the start time in seconds, the fade thresholds)
are all rational, so the arithmetic is embedded over `ℚ`.  Python's `%` and
`//` are floor-based for a positive right operand
(`x % m = x - m * floor (x / m)`, `x // m = floor (x / m)`), which is how
they are modelled here.  Trigonometry (`np.cos`, `np.sin`, `np.deg2rad`) is
embedded over `ℝ`.  A Python division whose divisor can be zero raises
`ZeroDivisionError`; such a computation is embedded as an `Option`, with
`none` standing for the raise.
-/

set_option autoImplicit false
set_option linter.unusedVariables false

namespace Watch

/-- Source constant `START_HOUR = 12` (Main.py line 46). -/
def START_HOUR : ℤ := 12

/-- Source constant `START_MINUTE = 10` (Main.py line 47). -/
def START_MINUTE : ℤ := 10

/-- Source constant `START_SECOND = 30` (Main.py line 48). -/
def START_SECOND : ℤ := 30

/-- Source constant `FPS = 24` (Main.py line 51). -/
def FPS : ℤ := 24

/-- Source constant `ANIM_DURATION = 10` (Main.py line 52). -/
def ANIM_DURATION : ℤ := 10

/-- Source constant `TOTAL_FRAMES = FPS * ANIM_DURATION` (Main.py line 53). -/
def TOTAL_FRAMES : ℤ := FPS * ANIM_DURATION

/-- Python `x % m` for `m ≠ 0`: `x - m * floor (x / m)`. -/
def fmod (x m : ℚ) : ℚ := x - m * (⌊x / m⌋ : ℚ)

/-- Python `x // m` for `m ≠ 0`: `floor (x / m)` as a value. -/
def fdiv (x m : ℚ) : ℚ := (⌊x / m⌋ : ℚ)

/-- Embeds `elapsed_seconds = frame / FPS` (Main.py line 228). -/
def elapsed_seconds (frame : ℤ) : ℚ := (frame : ℚ) / (FPS : ℚ)

/-- Embeds `total_seconds = START_HOUR * 3600 + START_MINUTE * 60 +
START_SECOND + elapsed_seconds` (Main.py line 229). -/
def total_seconds (frame : ℤ) : ℚ :=
  (START_HOUR : ℚ) * 3600 + (START_MINUTE : ℚ) * 60 + (START_SECOND : ℚ) +
    elapsed_seconds frame

/-- Embeds `current_h = (total_seconds % 43200) // 3600` (Main.py line 232). -/
def current_h (frame : ℤ) : ℚ := fdiv (fmod (total_seconds frame) 43200) 3600

/-- Embeds `rem = total_seconds % 3600` (Main.py line 233). -/
def rem (frame : ℤ) : ℚ := fmod (total_seconds frame) 3600

/-- Embeds `current_m = rem // 60` (Main.py line 234). -/
def current_m (frame : ℤ) : ℚ := fdiv (rem frame) 60

/-- Embeds `current_s = rem % 60` (Main.py line 235). -/
def current_s (frame : ℤ) : ℚ := fmod (rem frame) 60

/-- Embeds `hour_angle = 90 - (current_h * 30 + (current_m / 60) * 30)`
(Main.py line 238). -/
def hour_angle (frame : ℤ) : ℚ :=
  90 - (current_h frame * 30 + current_m frame / 60 * 30)

/-- Embeds `minute_angle = 90 - (current_m * 6 + (current_s / 60) * 6)`
(Main.py line 239). -/
def minute_angle (frame : ℤ) : ℚ :=
  90 - (current_m frame * 6 + current_s frame / 60 * 6)

/-- Embeds `second_angle = 90 - (current_s * 6)` (Main.py line 240). -/
def second_angle (frame : ℤ) : ℚ := 90 - current_s frame * 6

/-- Embeds `fade_start_frame = FPS * 1` (Main.py line 253). -/
def fade_start_frame : ℤ := FPS * 1

/-- Embeds `fade_end_frame = FPS * 3` (Main.py line 254). -/
def fade_end_frame : ℤ := FPS * 3

/-- Embeds the fade branch of `update_frame` (Main.py lines 256-266), with
the two thresholds as parameters as the spec configures them; the script
passes `fade_start_frame` and `fade_end_frame`.  Returns
`(alpha, y_text)`.  The interpolation `t = (frame - fs) / (fe - fs)` is a
Python division that raises `ZeroDivisionError` when `fe = fs`; the raise
is embedded as `none`. -/
def text_overlay (fs fe frame : ℤ) : Option (ℚ × ℚ) :=
  if frame < fs then
    some (0, -1)
  else if frame ≤ fe then
    if fe - fs = 0 then none
    else
      some (((frame - fs : ℤ) : ℚ) / ((fe - fs : ℤ) : ℚ),
        -1 + 1 / 2 * (((frame - fs : ℤ) : ℚ) / ((fe - fs : ℤ) : ℚ)))
  else
    some (1, -(1 / 2))

/-- Embeds numpy `deg2rad`: multiplication by `π / 180` (Main.py line 20). -/
noncomputable def deg2rad (theta_deg : ℝ) : ℝ := theta_deg * (Real.pi / 180)

/-- Embeds `polar_to_cartesian` (Main.py lines 15-23): convert
`(r, θ in degrees)` to Cartesian `(x, y)` relative to a given center. -/
noncomputable def polar_to_cartesian (r theta_deg : ℝ) (center : ℝ × ℝ) :
    ℝ × ℝ :=
  (center.1 + r * Real.cos (deg2rad theta_deg),
   center.2 + r * Real.sin (deg2rad theta_deg))

/-- Source constant `R_DIAL = 0.90` (Main.py line 27). -/
noncomputable def R_DIAL : ℝ := 0.90

/-- Source constant `HOUR_HAND_LENGTH = 0.50` (Main.py line 36). -/
noncomputable def HOUR_HAND_LENGTH : ℝ := 0.50

/-- Source constant `MINUTE_HAND_LENGTH = 0.75` (Main.py line 37). -/
noncomputable def MINUTE_HAND_LENGTH : ℝ := 0.75

/-- Source constant `SECOND_HAND_LENGTH = 0.85` (Main.py line 38). -/
noncomputable def SECOND_HAND_LENGTH : ℝ := 0.85

/-- The state of the dynamic artists written by `update_frame`: the three
hand `Line2D` data pairs (x-list, y-list), and the text content, alpha and
position of `birthday_text` (Main.py lines 187-209). -/
structure ArtistState where
  hour_data : List ℝ × List ℝ
  minute_data : List ℝ × List ℝ
  second_data : List ℝ × List ℝ
  text_content : String
  text_alpha : ℚ
  text_position : ℚ × ℚ

/-- The artists as created before the animation runs: empty hand data,
empty text at `(0, -1.0)` with alpha `0` (Main.py lines 187-209). -/
def init_state : ArtistState where
  hour_data := ([], [])
  minute_data := ([], [])
  second_data := ([], [])
  text_content := ""
  text_alpha := 0
  text_position := (0, -1)

/-- Embeds `update_frame` (Main.py lines 225-273).  The function reads only
its frame argument and the module constants; it overwrites every dynamic
artist field.  `none` stands for the `ZeroDivisionError` that the fade
interpolation would raise (never with the script's thresholds 24 and 72). -/
noncomputable def update_frame (s : ArtistState) (frame : ℤ) :
    Option ArtistState :=
  (text_overlay fade_start_frame fade_end_frame frame).map fun ty =>
    { hour_data :=
        ([0, (polar_to_cartesian (HOUR_HAND_LENGTH * R_DIAL)
            ((hour_angle frame : ℚ) : ℝ) (0, 0)).1],
         [0, (polar_to_cartesian (HOUR_HAND_LENGTH * R_DIAL)
            ((hour_angle frame : ℚ) : ℝ) (0, 0)).2])
      minute_data :=
        ([0, (polar_to_cartesian (MINUTE_HAND_LENGTH * R_DIAL)
            ((minute_angle frame : ℚ) : ℝ) (0, 0)).1],
         [0, (polar_to_cartesian (MINUTE_HAND_LENGTH * R_DIAL)
            ((minute_angle frame : ℚ) : ℝ) (0, 0)).2])
      second_data :=
        ([0, (polar_to_cartesian (SECOND_HAND_LENGTH * R_DIAL)
            ((second_angle frame : ℚ) : ℝ) (0, 0)).1],
         [0, (polar_to_cartesian (SECOND_HAND_LENGTH * R_DIAL)
            ((second_angle frame : ℚ) : ℝ) (0, 0)).2])
      text_content := " Message "
      text_alpha := ty.1
      text_position := (0, ty.2) }

/-- Configuration construction as the source performs it (Main.py lines
50-53): the constants are bound directly, `TOTAL_FRAMES = FPS *
ANIM_DURATION`, with no validation of any kind.  Parameterized over the two
literal values, with `Except` giving a would-be validation error a place to
live; the source never produces the error branch. -/
def mkConfig (fps duration : ℤ) : Except String (ℤ × ℤ) :=
  Except.ok (fps, fps * duration)

/-! ### Helper lemmas about `fmod` and `fdiv` -/

lemma floor_div_eq {x m : ℚ} (n : ℤ) (hm : 0 < m) (h1 : (n : ℚ) * m ≤ x)
    (h2 : x < ((n : ℚ) + 1) * m) : ⌊x / m⌋ = n := by
  rw [Int.floor_eq_iff]
  refine ⟨?_, ?_⟩
  · rw [le_div_iff₀ hm]
    exact h1
  · rw [div_lt_iff₀ hm]
    exact h2

lemma fmod_eval {x m : ℚ} (n : ℤ) (hm : 0 < m) (h1 : (n : ℚ) * m ≤ x)
    (h2 : x < ((n : ℚ) + 1) * m) : fmod x m = x - m * n := by
  unfold fmod
  rw [floor_div_eq n hm h1 h2]

lemma fdiv_eval {x m : ℚ} (n : ℤ) (hm : 0 < m) (h1 : (n : ℚ) * m ≤ x)
    (h2 : x < ((n : ℚ) + 1) * m) : fdiv x m = (n : ℚ) := by
  unfold fdiv
  rw [floor_div_eq n hm h1 h2]

lemma fmod_nonneg (x : ℚ) {m : ℚ} (hm : 0 < m) : 0 ≤ fmod x m := by
  unfold fmod
  have h1 : (⌊x / m⌋ : ℚ) ≤ x / m := Int.floor_le _
  have h2 : m * (⌊x / m⌋ : ℚ) ≤ m * (x / m) := mul_le_mul_of_nonneg_left h1 hm.le
  have h3 : m * (x / m) = x := by field_simp
  linarith

lemma fmod_lt (x : ℚ) {m : ℚ} (hm : 0 < m) : fmod x m < m := by
  unfold fmod
  have h1 : x / m < (⌊x / m⌋ : ℚ) + 1 := Int.lt_floor_add_one _
  have h2 : m * (x / m) < m * ((⌊x / m⌋ : ℚ) + 1) := (mul_lt_mul_left hm).mpr h1
  have h3 : m * (x / m) = x := by field_simp
  have h4 : m * ((⌊x / m⌋ : ℚ) + 1) = m * (⌊x / m⌋ : ℚ) + m := by ring
  linarith

lemma fdiv_nonneg {x m : ℚ} (hx : 0 ≤ x) (hm : 0 < m) : 0 ≤ fdiv x m := by
  unfold fdiv
  have h : (0 : ℤ) ≤ ⌊x / m⌋ := Int.floor_nonneg.mpr (div_nonneg hx hm.le)
  exact_mod_cast h

lemma fdiv_lt_of_lt {x m : ℚ} (k : ℤ) (hm : 0 < m) (h : x < (k : ℚ) * m) :
    fdiv x m < (k : ℚ) := by
  unfold fdiv
  have hk : ⌊x / m⌋ < k := by
    rw [Int.floor_lt, div_lt_iff₀ hm]
    exact h
  exact_mod_cast hk

/-! ### Range of the time decomposition -/

lemma current_h_range (f : ℤ) : 0 ≤ current_h f ∧ current_h f < 12 := by
  unfold current_h
  have h1 : 0 ≤ fmod (total_seconds f) 43200 := fmod_nonneg _ (by norm_num)
  have h2 : fmod (total_seconds f) 43200 < 43200 := fmod_lt _ (by norm_num)
  refine ⟨fdiv_nonneg h1 (by norm_num), ?_⟩
  have h3 : fdiv (fmod (total_seconds f) 43200) 3600 < ((12 : ℤ) : ℚ) :=
    fdiv_lt_of_lt 12 (by norm_num) (by push_cast; linarith)
  exact_mod_cast h3

lemma rem_range (f : ℤ) : 0 ≤ rem f ∧ rem f < 3600 :=
  ⟨fmod_nonneg _ (by norm_num), fmod_lt _ (by norm_num)⟩

lemma current_m_range (f : ℤ) : 0 ≤ current_m f ∧ current_m f < 60 := by
  unfold current_m
  obtain ⟨h1, h2⟩ := rem_range f
  refine ⟨fdiv_nonneg h1 (by norm_num), ?_⟩
  have h3 : fdiv (rem f) 60 < ((60 : ℤ) : ℚ) :=
    fdiv_lt_of_lt 60 (by norm_num) (by push_cast; linarith)
  exact_mod_cast h3

lemma current_s_range (f : ℤ) : 0 ≤ current_s f ∧ current_s f < 60 :=
  ⟨fmod_nonneg _ (by norm_num), fmod_lt _ (by norm_num)⟩

/-! ### Concrete evaluation at frame 0 -/

lemma total_seconds_zero : total_seconds 0 = 43830 := by
  unfold total_seconds elapsed_seconds START_HOUR START_MINUTE START_SECOND FPS
  push_cast
  norm_num

lemma rem_zero : rem 0 = 630 := by
  unfold rem
  rw [total_seconds_zero, fmod_eval 12 (by norm_num) (by norm_num) (by norm_num)]
  norm_num

lemma current_h_zero : current_h 0 = 0 := by
  unfold current_h
  rw [total_seconds_zero, fmod_eval 1 (by norm_num) (by norm_num) (by norm_num)]
  rw [show (43830 : ℚ) - 43200 * ((1 : ℤ) : ℚ) = 630 by norm_num]
  rw [fdiv_eval 0 (by norm_num) (by norm_num) (by norm_num)]
  norm_num

lemma current_m_zero : current_m 0 = 10 := by
  unfold current_m
  rw [rem_zero, fdiv_eval 10 (by norm_num) (by norm_num) (by norm_num)]
  norm_num

lemma current_s_zero : current_s 0 = 30 := by
  unfold current_s
  rw [rem_zero, fmod_eval 10 (by norm_num) (by norm_num) (by norm_num)]
  norm_num

/-! ### Structure of the minute angle over one frame step -/

lemma minute_angle_rem (f : ℤ) : minute_angle f = 90 - rem f / 10 := by
  unfold minute_angle current_m current_s fdiv fmod
  ring

lemma total_seconds_succ (f : ℤ) :
    total_seconds (f + 1) = total_seconds f + 1 / 24 := by
  unfold total_seconds elapsed_seconds FPS
  push_cast
  ring

lemma rem_succ (f : ℤ) :
    rem (f + 1) = rem f + 1 / 24 -
      3600 * ((⌊total_seconds (f + 1) / 3600⌋ - ⌊total_seconds f / 3600⌋ : ℤ) : ℚ) := by
  unfold rem fmod
  rw [total_seconds_succ]
  push_cast
  ring

/-! ### Claim theorems -/

/-- C1: for every integer frame index `f`, the frame state function computes
`elapsed = f / framesPerSecond`, `total = startSeconds + elapsed` with
`startSeconds = startHour*3600 + startMinute*60 + startSecond`, and
decomposes that single `total` value as `hour = (total mod 43200) div 3600`,
`remainder = total mod 3600`, `minute = remainder div 60`,
`second = remainder mod 60`, where `mod`/`div` are the floor-based
operations `x mod m = x - m * floor (x / m)` and `x div m = floor (x / m)`. -/
theorem frame_time_decomposition : ∀ f : ℤ,
    elapsed_seconds f = (f : ℚ) / 24 ∧
    total_seconds f = (12 * 3600 + 10 * 60 + 30 : ℚ) + elapsed_seconds f ∧
    current_h f =
      (⌊(total_seconds f - 43200 * (⌊total_seconds f / 43200⌋ : ℚ)) / 3600⌋ : ℚ) ∧
    rem f = total_seconds f - 3600 * (⌊total_seconds f / 3600⌋ : ℚ) ∧
    current_m f = (⌊rem f / 60⌋ : ℚ) ∧
    current_s f = rem f - 60 * (⌊rem f / 60⌋ : ℚ) := by
  intro f
  refine ⟨?_, ?_, rfl, rfl, rfl, rfl⟩
  · unfold elapsed_seconds FPS
    norm_num
  · unfold total_seconds START_HOUR START_MINUTE START_SECOND
    push_cast
    ring

/-- C2: for every integer frame index `f` the hand angles equal
`hourAngle = 90 - (hour*30 + (minute/60)*30)`,
`minuteAngle = 90 - (minute*6 + (second/60)*6)`,
`secondAngle = 90 - second*6`; at `f = 0` with start time 12:10:30 the
decomposition gives hour `0`, minute `10`, second `30` and the angles are
`85`, `27` and `-90` degrees. -/
theorem hand_angle_formulas :
    (∀ f : ℤ,
      hour_angle f = 90 - (current_h f * 30 + current_m f / 60 * 30) ∧
      minute_angle f = 90 - (current_m f * 6 + current_s f / 60 * 6) ∧
      second_angle f = 90 - current_s f * 6) ∧
    current_h 0 = 0 ∧ current_m 0 = 10 ∧ current_s 0 = 30 ∧
    hour_angle 0 = 85 ∧ minute_angle 0 = 27 ∧ second_angle 0 = -90 := by
  refine ⟨fun f => ⟨rfl, rfl, rfl⟩, current_h_zero, current_m_zero,
    current_s_zero, ?_, ?_, ?_⟩
  · unfold hour_angle
    rw [current_h_zero, current_m_zero]
    norm_num
  · unfold minute_angle
    rw [current_m_zero, current_s_zero]
    norm_num
  · unfold second_angle
    rw [current_s_zero]
    norm_num

/-- C3: for every non-negative integer frame index `f`, no matter how large,
the time decomposition satisfies `hour ∈ [0,12)`, `minute ∈ [0,60)` and
`second ∈ [0,60)`. -/
theorem decomposition_in_range : ∀ f : ℤ, 0 ≤ f →
    (0 ≤ current_h f ∧ current_h f < 12) ∧
    (0 ≤ current_m f ∧ current_m f < 60) ∧
    (0 ≤ current_s f ∧ current_s f < 60) :=
  fun f _ => ⟨current_h_range f, current_m_range f, current_s_range f⟩

/-- Witness for C3 at the concrete frame index `10000000` (about 4.8 days of
simulated time at 24 frames per second). -/
theorem decomposition_in_range_witness :
    0 ≤ (10000000 : ℤ) ∧
    ((0 ≤ current_h 10000000 ∧ current_h 10000000 < 12) ∧
     (0 ≤ current_m 10000000 ∧ current_m 10000000 < 60) ∧
     (0 ≤ current_s 10000000 ∧ current_s 10000000 < 60)) :=
  ⟨by norm_num, decomposition_in_range 10000000 (by norm_num)⟩

/-- C4: the text overlay state is the three-phase piecewise-linear function
of the frame index against the thresholds `fade_start_frame = 24` and
`fade_end_frame = 72`: opacity `0` and offset `-1` before the window,
linear interpolation `t = (f - 24) / 48` inside it, opacity `1` and offset
`-1/2` after it; at the window's start, end and midpoint the state is
`(0, -1)`, `(1, -1/2)` and `(1/2, -3/4)` respectively. -/
theorem text_overlay_phases :
    (∀ f : ℤ, f < fade_start_frame →
      text_overlay fade_start_frame fade_end_frame f = some (0, -1)) ∧
    (∀ f : ℤ, fade_start_frame ≤ f → f ≤ fade_end_frame →
      text_overlay fade_start_frame fade_end_frame f =
        some (((f : ℚ) - 24) / 48, -1 + 1 / 2 * (((f : ℚ) - 24) / 48))) ∧
    (∀ f : ℤ, fade_end_frame < f →
      text_overlay fade_start_frame fade_end_frame f = some (1, -(1 / 2))) ∧
    text_overlay fade_start_frame fade_end_frame 24 = some (0, -1) ∧
    text_overlay fade_start_frame fade_end_frame 72 = some (1, -(1 / 2)) ∧
    text_overlay fade_start_frame fade_end_frame 48 = some (1 / 2, -(3 / 4)) := by
  have hs : fade_start_frame = 24 := by decide
  have he : fade_end_frame = 72 := by decide
  have hmid : ∀ f : ℤ, fade_start_frame ≤ f → f ≤ fade_end_frame →
      text_overlay fade_start_frame fade_end_frame f =
        some (((f : ℚ) - 24) / 48, -1 + 1 / 2 * (((f : ℚ) - 24) / 48)) := by
    intro f h1 h2
    rw [hs] at h1
    rw [he] at h2
    unfold text_overlay
    rw [hs, he, if_neg (by omega), if_pos h2, if_neg (by omega)]
    push_cast
    norm_num
  refine ⟨?_, hmid, ?_, ?_, ?_, ?_⟩
  · intro f h1
    unfold text_overlay
    exact if_pos h1
  · intro f h1
    rw [he] at h1
    unfold text_overlay
    rw [hs, he, if_neg (by omega), if_neg (by omega)]
  · rw [hmid 24 (by omega) (by rw [he]; omega)]
    norm_num
  · rw [hmid 72 (by rw [hs]; omega) (by omega)]
    norm_num
  · rw [hmid 48 (by rw [hs]; omega) (by rw [he]; omega)]
    norm_num

/-- Witness for C4's phase implications at the concrete frame index 30:
`24 ≤ 30 ≤ 72`, and the overlay interpolates linearly. -/
theorem text_overlay_phases_witness :
    text_overlay fade_start_frame fade_end_frame 30 =
      some (((30 : ℚ) - 24) / 48, -1 + 1 / 2 * (((30 : ℚ) - 24) / 48)) :=
  text_overlay_phases.2.1 30 (by decide) (by decide)

/-- C5: the polar-to-Cartesian converter returns
`(x0 + r * cos θ, y0 + r * sin θ)` with `θ` the angle converted from degrees
to radians; in particular `polar_to_cartesian 1 0` is `(1, 0)` and
`polar_to_cartesian 1 90` is `(0, 1)`. -/
theorem polar_to_cartesian_spec :
    (∀ (r theta_deg : ℝ) (c : ℝ × ℝ),
      polar_to_cartesian r theta_deg c =
        (c.1 + r * Real.cos (theta_deg * (Real.pi / 180)),
         c.2 + r * Real.sin (theta_deg * (Real.pi / 180)))) ∧
    polar_to_cartesian 1 0 (0, 0) = (1, 0) ∧
    polar_to_cartesian 1 90 (0, 0) = (0, 1) := by
  refine ⟨fun r theta_deg c => rfl, ?_, ?_⟩
  · unfold polar_to_cartesian deg2rad
    norm_num
  · unfold polar_to_cartesian deg2rad
    rw [show (90 : ℝ) * (Real.pi / 180) = Real.pi / 2 by ring]
    rw [Real.cos_pi_div_two, Real.sin_pi_div_two]
    norm_num

/-- C6: between any two consecutive frame indices the minute-hand angle
moves by at most one minute tick (6 degrees) once the 360-degree wrap at
an hour rollover is taken out: there is an integer number of full turns `k`
with `|minuteAngle (f+1) - minuteAngle f - 360 * k| ≤ 6`. -/
theorem minute_angle_continuity :
    ∀ f : ℤ, ∃ k : ℤ,
      |minute_angle (f + 1) - minute_angle f - 360 * (k : ℚ)| ≤ 6 := by
  intro f
  refine ⟨⌊total_seconds (f + 1) / 3600⌋ - ⌊total_seconds f / 3600⌋, ?_⟩
  have hd : minute_angle (f + 1) - minute_angle f -
      360 * ((⌊total_seconds (f + 1) / 3600⌋ - ⌊total_seconds f / 3600⌋ : ℤ) : ℚ) =
      -(1 / 240) := by
    rw [minute_angle_rem, minute_angle_rem, rem_succ]
    push_cast
    ring
  rw [hd, abs_neg, abs_of_nonneg (by norm_num)]
  norm_num

/-- C7: the fade interpolation of `update_frame` is not guarded against
equal thresholds: with `fadeStart = fadeEnd = 24` the frame `24` falls in
the interpolation branch and the division `(f - fadeStart) / (fadeEnd -
fadeStart)` has a zero divisor, so the computation raises (modelled as
`none`) instead of returning a boundary value.  With the script's actual
thresholds `24` and `72` the divisor is `48` and the branch always
succeeds. -/
theorem text_overlay_unguarded_division :
    text_overlay 24 24 24 = none ∧
    (∀ f : ℤ,
      (text_overlay fade_start_frame fade_end_frame f).isSome = true) := by
  refine ⟨by decide, ?_⟩
  intro f
  unfold text_overlay fade_start_frame fade_end_frame FPS
  by_cases h1 : f < 24 * 1
  · rw [if_pos h1]
    rfl
  · rw [if_neg h1]
    by_cases h2 : f ≤ 24 * 3
    · rw [if_pos h2, if_neg (by omega)]
      rfl
    · rw [if_neg h2]
      rfl

/-- C8: the frame state depends only on the frame index and the fixed
configuration, not on any previous artist state: updating from any two
states at the same frame index gives identical results, and re-running
`update_frame` at the same index on its own output reproduces that
output. -/
theorem update_frame_stateless :
    ∀ (s1 s2 : ArtistState) (f : ℤ),
      update_frame s1 f = update_frame s2 f ∧
      (update_frame s1 f).bind (fun s => update_frame s f) =
        update_frame s1 f := by
  intro s1 s2 f
  refine ⟨rfl, ?_⟩
  unfold update_frame
  cases text_overlay fade_start_frame fade_end_frame f
  · rfl
  · rfl

/-- C9 (amended): the source performs no configuration validation at all:
construction succeeds for every frames-per-second and duration value, and
the script's hardcoded constants are the valid `FPS = 24` and
`TOTAL_FRAMES = 240`. -/
theorem mkConfig_no_validation :
    (∀ fps duration : ℤ, mkConfig fps duration = Except.ok (fps, fps * duration)) ∧
    FPS = 24 ∧ TOTAL_FRAMES = 240 ∧ 0 < FPS ∧ 0 < TOTAL_FRAMES :=
  ⟨fun _ _ => rfl, rfl, by decide, by decide, by decide⟩

/-- Counterexample to C9 as stated: constructing the configuration with the
negative frames-per-second value `-5` does not fail with a validation
error; it succeeds and yields the garbage total frame count `-50`. -/
theorem mkConfig_accepts_negative_fps :
    mkConfig (-5) 10 = Except.ok ((-5 : ℤ), (-50 : ℤ)) := rfl

/-- C10: for every negative frame index the frame update still produces a
result (no error is raised), the overlay falls into the pre-fade branch
with opacity `0` and offset `-1`, and the time decomposition still lands in
`hour ∈ [0,12)`, `minute, second ∈ [0,60)` because the floor-based modulo
is non-negative for negative totals. -/
theorem negative_frame_safe :
    ∀ (f : ℤ) (s : ArtistState), f < 0 →
      (update_frame s f).isSome = true ∧
      text_overlay fade_start_frame fade_end_frame f = some (0, -1) ∧
      (0 ≤ current_h f ∧ current_h f < 12) ∧
      (0 ≤ current_m f ∧ current_m f < 60) ∧
      (0 ≤ current_s f ∧ current_s f < 60) := by
  intro f s hf
  have hov : text_overlay fade_start_frame fade_end_frame f = some (0, -1) := by
    unfold text_overlay fade_start_frame FPS
    exact if_pos (by omega)
  refine ⟨?_, hov, current_h_range f, current_m_range f, current_s_range f⟩
  unfold update_frame
  rw [hov]
  rfl

/-- Witness for C10 at the concrete frame index `-5`, updating from the
initial artist state. -/
theorem negative_frame_safe_witness :
    (-5 : ℤ) < 0 ∧
    ((update_frame init_state (-5)).isSome = true ∧
     text_overlay fade_start_frame fade_end_frame (-5) = some (0, -1) ∧
     (0 ≤ current_h (-5) ∧ current_h (-5) < 12) ∧
     (0 ≤ current_m (-5) ∧ current_m (-5) < 60) ∧
     (0 ≤ current_s (-5) ∧ current_s (-5) < 60)) :=
  ⟨by norm_num, negative_frame_safe (-5) init_state (by norm_num)⟩

end Watch
